import Mathlib

/-
Verification of the permission-gated command/script execution subsystem of
the hanzo MCP repository.

The development shallowly embeds the two Python executors:
  * `CommandExecutor`        (src/hanzo_mcp/tools/shell/command_executor.py)
  * `EnhancedCommandExecutor` (src/mcp_claude_code/enhanced_commands.py)

Pure helpers used by the executors (Python's `shlex.split`,
`os.path.normpath`, `os.path.expanduser`, `os.path.join`,
`os.path.basename`, `str.strip`, `str.split`, substring tests, base64)
are translated from their CPython reference implementations.

Environment-dependent queries (os.path.isdir, PermissionManager.is_path_allowed,
SessionManager state, HOME / pwd lookups for expanduser, the preferred-shell
probe, and tempfile name generation) are abstracted as an `Env` record of
oracles; subprocess completion is abstracted as a spawn oracle.  Each
executor entry point is modelled as a pure function from these oracles to a
result together with a trace of externally visible effects (spawn attempts,
process kills, session updates, permission-manager queries, temp-file
creation/removal), so properties such as "no subprocess is spawned" are
statements about the trace.
-/

/-! ## Python string helpers -/

/-- Whitespace characters stripped by Python's `str.strip()` and used by
`str.split()` with no arguments (ASCII subset; commands are ASCII-relevant). -/
def isPyWs (c : Char) : Bool :=
  c == ' ' || c == '\t' || c == '\n' || c == '\r' ||
  c == Char.ofNat 11 || c == Char.ofNat 12

/-- Python `str.strip()`. -/
def pyStrip (s : String) : String :=
  String.mk (((s.data.dropWhile isPyWs).reverse.dropWhile isPyWs).reverse)

/-- Python `str.startswith(pre)`. -/
def pyStartswith (s pre : String) : Bool :=
  pre.data.isPrefixOf s.data

/-- Python `str.endswith(suf)`. -/
def pyEndswith (s suf : String) : Bool :=
  suf.data.isSuffixOf s.data

/-- Helper for `strContains`: does `needle` occur in the haystack char list? -/
def strContainsAux (needle : List Char) : List Char → Bool
  | [] => needle.isEmpty
  | c :: rest => needle.isPrefixOf (c :: rest) || strContainsAux needle rest

/-- Python's substring test `needle in hay`. -/
def strContains (hay needle : String) : Bool :=
  strContainsAux needle.data hay.data

/-- Helper for `pySplitWs`. -/
def pySplitWsAux : List Char → List Char → List String
  | [], cur => if cur.isEmpty then [] else [String.mk cur.reverse]
  | c :: rest, cur =>
      if isPyWs c then
        if cur.isEmpty then pySplitWsAux rest []
        else String.mk cur.reverse :: pySplitWsAux rest []
      else pySplitWsAux rest (c :: cur)

/-- Python `str.split()` with no argument: split on whitespace runs,
dropping empty fields. -/
def pySplitWs (s : String) : List String :=
  pySplitWsAux s.data []

/-- Python `str.lower()` on one character (ASCII range; the executor only
compares the result against the literal `"fish"`). -/
def pyLowerChar (c : Char) : Char :=
  if 'A' ≤ c ∧ c ≤ 'Z' then Char.ofNat (c.toNat + 32) else c

/-- Python `str.lower()`. -/
def pyLower (s : String) : String :=
  String.mk (s.data.map pyLowerChar)

/-- Python `os.path.basename`: the part after the last slash. -/
def pyBasename (p : String) : String :=
  String.mk ((p.data.reverse.takeWhile (fun c => c != '/')).reverse)

/-- Python `os.path.isabs` (POSIX). -/
def pyIsAbs (p : String) : Bool :=
  pyStartswith p "/"

/-- Python `posixpath.join` restricted to two arguments, as used by the
executor (`os.path.join(session_cwd, target_dir)`). -/
def pyJoin (a b : String) : String :=
  if pyIsAbs b then b
  else if a == "" || pyEndswith a "/" then a ++ b
  else a ++ "/" ++ b

/-- Python `str.split('/')` at the character-list level (keeps empty fields). -/
def splitSlash : List Char → List (List Char)
  | [] => [[]]
  | c :: rest =>
      let r := splitSlash rest
      if c == '/' then [] :: r
      else
        match r with
        | h :: t => (c :: h) :: t
        | [] => [[c]]

/-- Intercalate a character between character-list components. -/
def joinWith (c : Char) : List (List Char) → List Char
  | [] => []
  | [x] => x
  | x :: rest => x ++ c :: joinWith c rest

/-- The component-collapsing loop of CPython `posixpath.normpath`:
drop `\x7b'', '.'\x7d` components, and fold `..` against the accumulator
(which is kept reversed). -/
def normComps (initialSlashes : Nat) : List (List Char) → List (List Char) → List (List Char)
  | acc, [] => acc.reverse
  | acc, comp :: rest =>
      if comp = [] ∨ comp = ['.'] then normComps initialSlashes acc rest
      else if comp ≠ ['.', '.'] ∨ (initialSlashes = 0 ∧ acc = []) ∨ acc.head? = some ['.', '.'] then
        normComps initialSlashes (comp :: acc) rest
      else
        match acc with
        | [] => normComps initialSlashes [] rest
        | _ :: t => normComps initialSlashes t rest

/-- Python `posixpath.normpath`. -/
def pyNormpath (path : String) : String :=
  if path.data = [] then "."
  else
    let initialSlashes : Nat :=
      if pyStartswith path "/" then
        if pyStartswith path "//" && !(pyStartswith path "///") then 2 else 1
      else 0
    let comps := normComps initialSlashes [] (splitSlash path.data)
    let res := List.replicate initialSlashes '/' ++ joinWith '/' comps
    if res = [] then "." else String.mk res

/-! ## Python shlex.split (POSIX mode, whitespace_split, no comments)

Translated from CPython's `shlex.read_token` state machine with the
configuration used by `shlex.split`: `posix=True`, `whitespace_split=True`,
`commenters=''`, `whitespace=' \t\r\n'`, `quotes='\x27"'`, `escape='\x5c'`,
`escapedquotes='"'`.  A `ValueError` ("No closing quotation" /
"No escaped character") is represented as `Except.error`. -/

/-- Characters in shlex's whitespace set. -/
def isShlexWs (c : Char) : Bool :=
  c == ' ' || c == '\t' || c == '\r' || c == '\n'

/-- The single-quote character (code point 39), one of shlex's two quote
characters. -/
def squoteChar : Char :=
  Char.ofNat 39

/-- Where an escape sequence returns to (`escapedstate` in CPython). -/
inductive ShlexEsc where
  | word
  | quote (q : Char)
deriving DecidableEq

/-- Lexer state of `shlex.read_token`. -/
inductive ShlexSt where
  | ws
  | word
  | inQuote (q : Char)
  | esc (ret : ShlexEsc)
deriving DecidableEq

/-- One pass of the `shlex` lexer over the remaining characters.
`tok` is the token built so far, `quoted` records whether the current token
saw a quote, `acc` holds completed tokens in reverse order. -/
def shlexRun : List Char → ShlexSt → List Char → Bool → List String → Except String (List String)
  | [], .ws, _, _, acc => .ok acc.reverse
  | [], .word, tok, quoted, acc =>
      if tok ≠ [] ∨ quoted then .ok ((String.mk tok.reverse :: acc).reverse)
      else .ok acc.reverse
  | [], .inQuote _, _, _, _ => .error "No closing quotation"
  | [], .esc _, _, _, _ => .error "No escaped character"
  | c :: rest, .ws, tok, quoted, acc =>
      if isShlexWs c then shlexRun rest .ws tok quoted acc
      else if c == '\\' then shlexRun rest (.esc .word) tok quoted acc
      else if c == squoteChar || c == '"' then shlexRun rest (.inQuote c) tok true acc
      else shlexRun rest .word (c :: tok) quoted acc
  | c :: rest, .word, tok, quoted, acc =>
      if isShlexWs c then
        if tok ≠ [] ∨ quoted then shlexRun rest .ws [] false (String.mk tok.reverse :: acc)
        else shlexRun rest .ws tok quoted acc
      else if c == squoteChar || c == '"' then shlexRun rest (.inQuote c) tok true acc
      else if c == '\\' then shlexRun rest (.esc .word) tok quoted acc
      else shlexRun rest .word (c :: tok) quoted acc
  | c :: rest, .inQuote q, tok, quoted, acc =>
      if c == q then shlexRun rest .word tok quoted acc
      else if q == '"' && c == '\\' then shlexRun rest (.esc (.quote q)) tok quoted acc
      else shlexRun rest (.inQuote q) (c :: tok) quoted acc
  | c :: rest, .esc ret, tok, quoted, acc =>
      match ret with
      | .word => shlexRun rest .word (c :: tok) quoted acc
      | .quote q =>
          if c != '\\' && c != q then shlexRun rest (.inQuote q) (c :: '\\' :: tok) quoted acc
          else shlexRun rest (.inQuote q) (c :: tok) quoted acc

instance {ε α : Type} [DecidableEq ε] [DecidableEq α] : DecidableEq (Except ε α) := fun a b =>
  match a, b with
  | .ok x, .ok y =>
      if h : x = y then isTrue (by rw [h]) else isFalse (by intro hc; cases hc; exact h rfl)
  | .error x, .error y =>
      if h : x = y then isTrue (by rw [h]) else isFalse (by intro hc; cases hc; exact h rfl)
  | .ok _, .error _ => isFalse (by intro hc; cases hc)
  | .error _, .ok _ => isFalse (by intro hc; cases hc)

/-- Python `shlex.split(command)` as called by `is_command_allowed`. -/
def shlexSplit (s : String) : Except String (List String) :=
  shlexRun s.data .ws [] false []


/-! ## Base64 (Python `base64.b64encode` over UTF-8 bytes)

Bytes are represented as `Nat` values (each `< 256`; the executor obtains
them from `str.encode("utf-8")`, modelled with `String.toUTF8`). -/

/-- The standard base64 alphabet used by `base64.b64encode`. -/
def b64Alphabet : List Char :=
  "ABCDEFGHIJKLMNOPQRSTUVWXYZabcdefghijklmnopqrstuvwxyz0123456789+/".data

/-- The alphabet character for a 6-bit value. -/
def b64Char (n : Nat) : Char :=
  b64Alphabet.getD n '='

/-- Reverse lookup of an alphabet character. -/
def b64Val (c : Char) : Option Nat :=
  if c ∈ b64Alphabet then some (b64Alphabet.indexOf c) else none

/-- Base64-encode a byte list (standard alphabet, `=` padding), as
`base64.b64encode` does. -/
def b64EncodeBytes : List Nat → List Char
  | [] => []
  | [a] => [b64Char (a / 4), b64Char (a % 4 * 16), '=', '=']
  | [a, b] => [b64Char (a / 4), b64Char (a % 4 * 16 + b / 16), b64Char (b % 16 * 4), '=']
  | a :: b :: c :: rest =>
      b64Char (a / 4) :: b64Char (a % 4 * 16 + b / 16) ::
      b64Char (b % 16 * 4 + c / 64) :: b64Char (c % 64) :: b64EncodeBytes rest

/-- Standard base64 decoding (as performed by `base64 -d` in the Fish
pipeline): groups of four alphabet characters, with `=` padding allowed only
in the final group. -/
def b64DecodeChars : List Char → Option (List Nat)
  | [] => some []
  | c1 :: c2 :: c3 :: c4 :: rest =>
      match b64Val c1, b64Val c2 with
      | some v1, some v2 =>
          if c3 = '=' then
            if c4 = '=' ∧ rest = [] then some [v1 * 4 + v2 / 16] else none
          else
            match b64Val c3 with
            | some v3 =>
                if c4 = '=' then
                  if rest = [] then some [v1 * 4 + v2 / 16, v2 % 16 * 16 + v3 / 4] else none
                else
                  match b64Val c4 with
                  | some v4 =>
                      (b64DecodeChars rest).map
                        (fun tl => (v1 * 4 + v2 / 16) :: (v2 % 16 * 16 + v3 / 4) ::
                                   (v3 % 4 * 64 + v4) :: tl)
                  | none => none
            | none => none
      | _, _ => none
  | _ => none

/-- UTF-8 encoding of one Unicode code point as byte values
(the standard encoding applied by Python `str.encode("utf-8")`;
Lean's `Char` carries a valid scalar value `< 0x110000`). -/
def utf8EncodeNat (n : Nat) : List Nat :=
  if n < 128 then [n]
  else if n < 2048 then [192 + n / 64, 128 + n % 64]
  else if n < 65536 then [224 + n / 4096, 128 + n / 64 % 64, 128 + n % 64]
  else [240 + n / 262144, 128 + n / 4096 % 64, 128 + n / 64 % 64, 128 + n % 64]

/-- The UTF-8 bytes of a string, as `Nat` values
(Python `script.encode("utf-8")`). -/
def utf8Bytes (s : String) : List Nat :=
  s.data.flatMap (fun c => utf8EncodeNat c.toNat)

/-- The base64 text the Fish handler embeds in its pipeline:
`base64.b64encode(script.encode("utf-8")).decode("utf-8")`. -/
def b64OfString (s : String) : String :=
  String.mk (b64EncodeBytes (utf8Bytes s))


/-! ## Execution model

`CommandResult` is translated from `mcp_claude_code/enhanced_commands.py`;
the `hanzo_mcp` variant (`tools/shell/base.py`, imported by the executor) has
the same fields per the spec's data model. -/

/-- Result record of one execution attempt. -/
structure CommandResult where
  return_code : Int
  stdout : String
  stderr : String
  error_message : Option String
deriving DecidableEq

/-- `CommandResult.is_success`: true iff the command succeeded. -/
def CommandResult.is_success (r : CommandResult) : Bool :=
  r.return_code == 0

/-- Environment oracles: everything the executors query from the outside
world.  `isdir` is `os.path.isdir`; `isPathAllowed` is
`PermissionManager.is_path_allowed`; `home` is the `HOME`-based user home
used by `os.path.expanduser` (`none` when unavailable); `pwDir` is the
password-database lookup for `~user` forms; `sessionDirs` is the working
directory stored by `SessionManager` for a session id (sessions are created
lazily with a default directory, so the map is total); `preferredShell` is
the result of `_get_preferred_shell()` (a probe of `SHELL` and common shell
paths); `tempPath` maps a file suffix to the unique name that
`tempfile.NamedTemporaryFile` generates. -/
structure Env where
  isdir : String → Bool
  isPathAllowed : String → Bool
  home : Option String
  pwDir : String → Option String
  sessionDirs : String → String
  preferredShell : String
  tempPath : String → String

/-- Python `posixpath.expanduser` against the environment's `HOME` and
password-database oracles: `~` and `~/...` expand to the user home (path
returned unchanged when unavailable); `~user/...` expands via the password
database (path returned unchanged when the user is unknown); the home is
stripped of trailing slashes and an empty result becomes `/`. -/
def pyExpanduser (env : Env) (path : String) : String :=
  if !(pyStartswith path "~") then path
  else
    let rest := path.data.drop 1
    let name := rest.takeWhile (fun c => c ≠ '/')
    let tail := rest.dropWhile (fun c => c ≠ '/')
    let userhome? := if name = [] then env.home else env.pwDir (String.mk name)
    match userhome? with
    | none => path
    | some h =>
        let stripped := (h.data.reverse.dropWhile (fun c => c = '/')).reverse
        let res := stripped ++ tail
        if res = [] then "/" else String.mk res

/-- A subprocess creation request: `asyncio.create_subprocess_shell` with a
command line, or `asyncio.create_subprocess_exec` with an argument vector.
Each carries the working directory passed as the `cwd=` keyword. -/
inductive SpawnReq where
  | shell (cmd : String) (cwd : Option String)
  | exec (argv : List String) (cwd : Option String)
deriving DecidableEq

/-- The working directory carried by a spawn request. -/
def SpawnReq.cwdOf : SpawnReq → Option String
  | .shell _ c => c
  | .exec _ c => c

/-- Outcome of a spawn attempt plus bounded wait, decided by the scheduler:
the process completed within the timeout (`ok`), `asyncio.wait_for` raised
`TimeoutError` (`timedOut`), or some other exception was raised during
spawn or wait (`exn`). -/
inductive SpawnResult where
  | ok (rc : Int) (stdout stderr : String)
  | timedOut
  | exn (msg : String)
deriving DecidableEq

/-- Externally visible effects of one executor call, in order.  `spawn`
marks a subprocess creation attempt (with the stdin data passed to
`communicate`, if any); `kill` is the `process.kill()` issued on timeout
(the surrounding `except ProcessLookupError: pass` tolerates an
already-exited process); `setWorkingDir` is the session update performed by
`set_working_dir` (argument is the string after its `os.path.expanduser`);
`permCheck` marks a `PermissionManager.is_path_allowed` query;
`tempCreate`/`tempRemove` are temporary-file creation (with suffix and
content) and the `os.unlink` in the `finally` block. -/
inductive Effect where
  | spawn (req : SpawnReq) (stdinData : Option String)
  | kill
  | setWorkingDir (sessionId : String) (dir : String)
  | permCheck (path : String)
  | tempCreate (path : String) (suffix : String) (content : String)
  | tempRemove (path : String)
deriving DecidableEq

/-- Is an effect a subprocess-creation attempt? -/
def Effect.isSpawn : Effect → Bool
  | .spawn _ _ => true
  | _ => false

/-- No subprocess is spawned in the trace. -/
def noSpawn (tr : List Effect) : Bool :=
  !(tr.any Effect.isSpawn)

/-- Is an effect a permission-manager query? -/
def Effect.isPermCheck : Effect → Bool
  | .permCheck _ => true
  | _ => false

/-- The working directories of the spawn requests in a trace. -/
def spawnCwds (tr : List Effect) : List (Option String) :=
  tr.filterMap (fun e =>
    match e with
    | .spawn (.shell _ cwd) _ => some cwd
    | .spawn (.exec _ cwd) _ => some cwd
    | _ => none)

/-- Outcome of a Python call: a returned value, or an uncaught exception
propagating to the caller. -/
inductive PyOutcome where
  | ret (r : CommandResult)
  | raised (msg : String)
deriving DecidableEq

/-- Python truthiness of an optional string (`None` and `""` are falsy). -/
def optTruthy : Option String → Bool
  | none => false
  | some s => !(s == "")

/-- Python `process.returncode or 0` (an `or` that maps a falsy return code
to `0`; the identity on integers). -/
def rcOr0 (rc : Int) : Int :=
  if rc == 0 then 0 else rc

/-- The common spawn / `wait_for` / timeout-kill / exception-wrap tail shared
by every execution path: produce the `CommandResult` and effect trace
determined by the scheduler's outcome for this request.  The timeout value
only flows into the message text, so it is carried as its string rendering
`timeoutStr` (Python `f"...\x7btimeout\x7d..."`). -/
def finishSpawn (oracle : SpawnReq → SpawnResult) (req : SpawnReq)
    (stdinData : Option String) (timeoutMsg : String) (errPrefix : String) :
    PyOutcome × List Effect :=
  match oracle req with
  | .ok rc out err => (.ret ⟨rcOr0 rc, out, err, none⟩, [.spawn req stdinData])
  | .timedOut => (.ret ⟨-1, "", "", some timeoutMsg⟩, [.spawn req stdinData, .kill])
  | .exn m => (.ret ⟨1, "", "", some (errPrefix ++ m)⟩, [.spawn req stdinData])

/-! ## CommandExecutor (hanzo_mcp/tools/shell/command_executor.py) -/

/-- The single-quote character, written via its code point. -/
def squote : String :=
  String.mk [Char.ofNat 39]

/-- Default `excluded_commands` of `CommandExecutor.__init__`. -/
def excludedDefault : List String :=
  ["rm"]

/-- `CommandExecutor.is_command_allowed`: tokenize with `shlex.split`
(malformed → rejected), reject empty token lists, reject when the base
command is in the exclusion list. -/
def isCommandAllowed (excluded : List String) (command : String) : Bool :=
  match shlexSplit command with
  | .error _ => false
  | .ok [] => false
  | .ok (base :: _) => !(excluded.contains base)

/-- Effective working directory resolution at the top of `execute_command` /
`execute_script` / `execute_script_from_file`: explicit `cwd` wins; else the
session's stored directory when a session id is present. -/
def effectiveCwdOf (env : Env) (cwd : Option String) (sessionId : Option String) :
    Option String :=
  if optTruthy sessionId && !(optTruthy cwd) then
    some (env.sessionDirs (sessionId.getD ""))
  else cwd

/-- Outcome of the `if effective_cwd:` existence / permission guard. -/
inductive CwdCheck where
  | fail (r : CommandResult) (tr : List Effect)
  | pass (pre : List Effect)

/-- The working-directory guard shared verbatim by both executors:
when an effective cwd is set, fail if it is not a directory, then query the
permission manager and fail if it is not allowed. -/
def checkEffectiveCwd (env : Env) (effectiveCwd : Option String) : CwdCheck :=
  if optTruthy effectiveCwd then
    let ec := effectiveCwd.getD ""
    if !(env.isdir ec) then
      .fail ⟨1, "", "", some ("Working directory does not exist: " ++ ec)⟩ []
    else if !(env.isPathAllowed ec) then
      .fail ⟨1, "", "", some ("Working directory not allowed: " ++ ec)⟩ [.permCheck ec]
    else .pass [.permCheck ec]
  else .pass []

/-- The shell-operator list `execute_command` scans for. -/
def shellOperators : List String :=
  ["&&", "||", "|", ";", ">", "<", "$(", "`", "$"]

/-- Login-shell wrapping of a command line: `-l -c` for zsh/bash/fish
basenames, plain `-c` otherwise, with the command placed inside single
quotes (Python `f"\x7buser_shell\x7d -l -c '\x7bcommand\x7d'"`). -/
def shellWrap (env : Env) (command : String) : String :=
  let userShell := env.preferredShell
  let base := pyBasename userShell
  if base == "zsh" || base == "bash" || base == "fish" then
    userShell ++ " -l -c " ++ squote ++ command ++ squote
  else
    userShell ++ " -c " ++ squote ++ command ++ squote

/-- The spawn phase of `CommandExecutor.execute_command`: use a shell when
the command contains a shell operator or a login shell is requested
(note the shell path passes the original `cwd` argument to the spawn, not
the session-derived `effective_cwd`); otherwise exec the tokenized argument
vector with `effective_cwd`. -/
def commandSpawn (env : Env) (oracle : SpawnReq → SpawnResult) (command : String)
    (cwd effectiveCwd : Option String) (timeoutStr : String) (useLoginShell : Bool) :
    PyOutcome × List Effect :=
  let needsShell := shellOperators.any (fun op => strContains command op)
  if needsShell || useLoginShell then
    let shellCmd := if useLoginShell then shellWrap env command else command
    finishSpawn oracle (.shell shellCmd cwd) none
      ("Command timed out after " ++ timeoutStr ++ " seconds: " ++ command)
      "Error executing command: "
  else
    match shlexSplit command with
    | .error e => (.ret ⟨1, "", "", some ("Error executing command: " ++ e)⟩, [])
    | .ok argv =>
        finishSpawn oracle (.exec argv effectiveCwd) none
          ("Command timed out after " ++ timeoutStr ++ " seconds: " ++ command)
          "Error executing command: "

/-- `execute_command` after the allow check and the `cd` special case:
working-directory guard, then spawn. -/
def executeCommandRest (env : Env) (oracle : SpawnReq → SpawnResult) (command : String)
    (cwd effectiveCwd : Option String) (timeoutStr : String) (useLoginShell : Bool) :
    PyOutcome × List Effect :=
  match checkEffectiveCwd env effectiveCwd with
  | .fail r tr => (.ret r, tr)
  | .pass pre =>
      let X := commandSpawn env oracle command cwd effectiveCwd timeoutStr useLoginShell
      (X.1, pre ++ X.2)

/-- Resolution of a `cd` target: join to the session cwd when relative, then
`expanduser`, then `normpath` — in the source's order. -/
def cdTarget (env : Env) (sessionCwd dirArg : String) : String :=
  let t := if pyIsAbs dirArg then dirArg else pyJoin sessionCwd dirArg
  pyNormpath (pyExpanduser env t)

/-- `CommandExecutor.execute_command` as a function of the environment and
spawn oracles: allow check, effective-cwd resolution, the session `cd`
special case, the working-directory guard, and the spawn phase.  The
caller-supplied `env=` overlay only feeds the subprocess environment and is
not modelled (no claim observes it). -/
def executeCommand (excluded : List String) (env : Env) (oracle : SpawnReq → SpawnResult)
    (command : String) (cwd : Option String) (timeoutStr : String)
    (useLoginShell : Bool) (sessionId : Option String) : PyOutcome × List Effect :=
  if !(isCommandAllowed excluded command) then
    (.ret ⟨1, "", "", some ("Command not allowed: " ++ command)⟩, [])
  else
    let effectiveCwd := effectiveCwdOf env cwd sessionId
    if optTruthy sessionId && pyStartswith (pyStrip command) "cd " then
      match shlexSplit command with
      | .error e => (.raised e, [])
      | .ok args =>
          if 1 < args.length then
            let sid := sessionId.getD ""
            let target := cdTarget env (env.sessionDirs sid) (args.getD 1 "")
            if env.isdir target then
              (.ret ⟨0, "", "", none⟩, [.setWorkingDir sid (pyExpanduser env target)])
            else
              (.ret ⟨1, "", "", some ("Directory does not exist: " ++ target)⟩, [])
          else
            executeCommandRest env oracle command cwd effectiveCwd timeoutStr useLoginShell
    else
      executeCommandRest env oracle command cwd effectiveCwd timeoutStr useLoginShell

/-- The inline pipeline the Fish handler builds:
`f'\x7binterpreter\x7d -c "echo \x7bbase64_script\x7d | base64 -d | fish"'`
(identical in both executor variants). -/
def fishCommand (interpreter script : String) : String :=
  interpreter ++ " -c \"echo " ++ b64OfString script ++ " | base64 -d | fish\""

/-- `CommandExecutor._handle_fish_script`: spawn the base64 pipeline through
the shell; nothing is piped to stdin. -/
def handleFishScript (oracle : SpawnReq → SpawnResult) (interpreter script : String)
    (cwd : Option String) (timeoutStr : String) : PyOutcome × List Effect :=
  finishSpawn oracle (.shell (fishCommand interpreter script) cwd) none
    ("Fish script execution timed out after " ++ timeoutStr ++ " seconds")
    "Error executing Fish script: "

/-- `CommandExecutor._execute_script_with_stdin`: wrap the interpreter in a
login shell, or exec the tokenized interpreter; the script text is handed to
`communicate` as stdin data. -/
def scriptStdin (env : Env) (oracle : SpawnReq → SpawnResult) (interpreter script : String)
    (cwd : Option String) (timeoutStr : String) (useLoginShell : Bool) :
    PyOutcome × List Effect :=
  if useLoginShell then
    let shellCmd := env.preferredShell ++ " -l -c " ++ squote ++ interpreter ++ squote
    finishSpawn oracle (.shell shellCmd cwd) (some script)
      ("Script execution timed out after " ++ timeoutStr ++ " seconds")
      "Error executing script: "
  else
    match shlexSplit interpreter with
    | .error e => (.ret ⟨1, "", "", some ("Error executing script: " ++ e)⟩, [])
    | .ok parts =>
        finishSpawn oracle (.exec parts cwd) (some script)
          ("Script execution timed out after " ++ timeoutStr ++ " seconds")
          "Error executing script: "

/-- `CommandExecutor.execute_script`: effective-cwd resolution and guard,
then dispatch on the interpreter's first word — the registered special
handler for `fish`, the stdin pipe otherwise.  An empty interpreter makes
`interpreter.split()[0]` raise `IndexError` (uncaught). -/
def executeScript (env : Env) (oracle : SpawnReq → SpawnResult) (script interpreter : String)
    (cwd : Option String) (timeoutStr : String) (useLoginShell : Bool)
    (sessionId : Option String) : PyOutcome × List Effect :=
  let effectiveCwd := effectiveCwdOf env cwd sessionId
  match checkEffectiveCwd env effectiveCwd with
  | .fail r tr => (.ret r, tr)
  | .pass pre =>
      match pySplitWs interpreter with
      | [] => (.raised "IndexError", pre)
      | name :: _ =>
          let X :=
            if pyLower name == "fish" then
              handleFishScript oracle interpreter script effectiveCwd timeoutStr
            else
              scriptStdin env oracle interpreter script effectiveCwd timeoutStr useLoginShell
          (X.1, pre ++ X.2)

/-- The language table of `execute_script_from_file`: name, interpreter
command, file extension (identical in both executor variants). -/
def languageMap : List (String × String × String) :=
  [("python", "python", ".py"),
   ("javascript", "node", ".js"),
   ("typescript", "ts-node", ".ts"),
   ("bash", "bash", ".sh"),
   ("fish", "fish", ".fish"),
   ("ruby", "ruby", ".rb"),
   ("php", "php", ".php"),
   ("perl", "perl", ".pl"),
   ("r", "Rscript", ".R")]

/-- The supported-language enumeration in the rejection message
(`", ".join(language_map.keys())`). -/
def supportedLanguagesJoined : String :=
  String.intercalate ", " (languageMap.map (fun e => e.1))

/-- `CommandExecutor.execute_script_from_file`: resolve the effective cwd
(no guard is run on it here), reject unsupported languages, write the script
to a fresh temporary file with the language's extension, run
`<interpreter> <tempfile> [args]` (wrapped in a login shell when requested —
that branch passes the original `cwd` to the spawn), and unlink the
temporary file in the `finally` block on every path. -/
def executeScriptFromFile (env : Env) (oracle : SpawnReq → SpawnResult)
    (script language : String) (cwd : Option String) (timeoutStr : String)
    (args : Option (List String)) (useLoginShell : Bool) (sessionId : Option String) :
    PyOutcome × List Effect :=
  let effectiveCwd := effectiveCwdOf env cwd sessionId
  match languageMap.find? (fun e => e.1 == language) with
  | none =>
      (.ret ⟨1, "", "", some ("Unsupported language: " ++ language ++
        ". Supported languages: " ++ supportedLanguagesJoined)⟩, [])
  | some entry =>
      let cmd := entry.2.1
      let ext := entry.2.2
      let tempPath := env.tempPath ext
      let inner :=
        if useLoginShell then
          let cmdline := cmd ++ " " ++ tempPath ++
            (match args with
             | some (a :: rest) => " " ++ String.intercalate " " (a :: rest)
             | _ => "")
          let shellCmd := env.preferredShell ++ " -l -c " ++ squote ++ cmdline ++ squote
          finishSpawn oracle (.shell shellCmd cwd) none
            ("Script execution timed out after " ++ timeoutStr ++ " seconds")
            "Error executing script: "
        else
          let argv := cmd :: tempPath :: (args.getD [])
          finishSpawn oracle (.exec argv effectiveCwd) none
            ("Script execution timed out after " ++ timeoutStr ++ " seconds")
            "Error executing script: "
      (inner.1, .tempCreate tempPath ext script :: (inner.2 ++ [.tempRemove tempPath]))

/-! ## EnhancedCommandExecutor (mcp_claude_code/enhanced_commands.py) -/

/-- Default `excluded_commands` installed by `_add_default_exclusions`. -/
def enhancedExcludedDefault : List String :=
  ["rm", "rmdir", "mv", "cp",
   "dd", "mkfs", "fdisk", "format",
   "chmod", "chown", "chgrp",
   "sudo", "su", "passwd", "mkpasswd",
   "ssh", "scp", "sftp", "ftp",
   "curl", "wget",
   "nc", "netcat",
   "mount", "umount",
   "apt", "apt-get", "yum", "dnf", "brew",
   "systemctl", "service"]

/-- Default `excluded_patterns` installed by `_add_default_exclusions`. -/
def enhancedPatternsDefault : List String :=
  [">", ">>",
   "|", "&", "&&", "||",
   ";",
   "`", "$(", "$((",
   "<(", ">(", "<<<"]

/-- `EnhancedCommandExecutor.is_command_allowed`: like the permissive
variant, but additionally rejects any command containing an excluded
pattern. -/
def enhancedIsCommandAllowed (excluded patterns : List String) (command : String) : Bool :=
  match shlexSplit command with
  | .error _ => false
  | .ok [] => false
  | .ok (base :: _) =>
      if excluded.contains base then false
      else !(patterns.any (fun p => strContains command p))

/-- `EnhancedCommandExecutor.execute_command`: allow check, working-directory
guard on the (explicit) `cwd`, then always exec the tokenized argument
vector — no shell, no sessions. -/
def enhancedExecuteCommand (excluded patterns : List String) (env : Env)
    (oracle : SpawnReq → SpawnResult) (command : String) (cwd : Option String)
    (timeoutStr : String) : PyOutcome × List Effect :=
  if !(enhancedIsCommandAllowed excluded patterns command) then
    (.ret ⟨1, "", "", some ("Command not allowed: " ++ command)⟩, [])
  else
    match checkEffectiveCwd env cwd with
    | .fail r tr => (.ret r, tr)
    | .pass pre =>
        match shlexSplit command with
        | .error e => (.ret ⟨1, "", "", some ("Error executing command: " ++ e)⟩, pre)
        | .ok argv =>
            let X := finishSpawn oracle (.exec argv cwd) none
              ("Command timed out after " ++ timeoutStr ++ " seconds: " ++ command)
              "Error executing command: "
            (X.1, pre ++ X.2)

/-- `EnhancedCommandExecutor._execute_script_with_stdin`: exec the tokenized
interpreter with the script as stdin data. -/
def enhancedScriptStdin (oracle : SpawnReq → SpawnResult) (interpreter script : String)
    (cwd : Option String) (timeoutStr : String) : PyOutcome × List Effect :=
  match shlexSplit interpreter with
  | .error e => (.ret ⟨1, "", "", some ("Error executing script: " ++ e)⟩, [])
  | .ok parts =>
      finishSpawn oracle (.exec parts cwd) (some script)
        ("Script execution timed out after " ++ timeoutStr ++ " seconds")
        "Error executing script: "

/-- `EnhancedCommandExecutor.execute_script`: working-directory guard, then
the `fish` special handler or the stdin pipe. -/
def enhancedExecuteScript (env : Env) (oracle : SpawnReq → SpawnResult)
    (script interpreter : String) (cwd : Option String) (timeoutStr : String) :
    PyOutcome × List Effect :=
  match checkEffectiveCwd env cwd with
  | .fail r tr => (.ret r, tr)
  | .pass pre =>
      match pySplitWs interpreter with
      | [] => (.raised "IndexError", pre)
      | name :: _ =>
          let X :=
            if pyLower name == "fish" then
              handleFishScript oracle interpreter script cwd timeoutStr
            else
              enhancedScriptStdin oracle interpreter script cwd timeoutStr
          (X.1, pre ++ X.2)

/-- `EnhancedCommandExecutor.execute_script_from_file`: reject unsupported
languages, write the script to a fresh temporary file, exec
`[interpreter, tempfile] + args`, and unlink the file in the `finally`
block on every path. -/
def enhancedExecuteScriptFromFile (env : Env) (oracle : SpawnReq → SpawnResult)
    (script language : String) (cwd : Option String) (timeoutStr : String)
    (args : Option (List String)) : PyOutcome × List Effect :=
  match languageMap.find? (fun e => e.1 == language) with
  | none =>
      (.ret ⟨1, "", "", some ("Unsupported language: " ++ language ++
        ". Supported languages: " ++ supportedLanguagesJoined)⟩, [])
  | some entry =>
      let cmd := entry.2.1
      let ext := entry.2.2
      let tempPath := env.tempPath ext
      let argv := cmd :: tempPath :: (args.getD [])
      let inner := finishSpawn oracle (.exec argv cwd) none
        ("Script execution timed out after " ++ timeoutStr ++ " seconds")
        "Error executing script: "
      (inner.1, .tempCreate tempPath ext script :: (inner.2 ++ [.tempRemove tempPath]))

/-! ## Concrete environments and oracles for witnesses -/

/-- A small concrete environment: `/w` (a session directory) and `/w/sub`
exist and are allowed; `/d` exists but is not allowed. -/
def envW : Env where
  isdir := fun p => p == "/w" || p == "/w/sub" || p == "/d"
  isPathAllowed := fun p => p == "/w" || p == "/w/sub"
  home := some "/home/u"
  pwDir := fun _ => none
  sessionDirs := fun _ => "/w"
  preferredShell := "/bin/zsh"
  tempPath := fun suf => "/tmp/t" ++ suf

/-- A concrete environment whose session directory `/bad` does not exist and
in which no path is permission-allowed, while `/d` exists. -/
def envBad : Env where
  isdir := fun p => p == "/d"
  isPathAllowed := fun _ => false
  home := some "/home/u"
  pwDir := fun _ => none
  sessionDirs := fun _ => "/bad"
  preferredShell := "/bin/zsh"
  tempPath := fun suf => "/tmp/t" ++ suf

/-- A scheduler on which every process completes immediately with success. -/
def oracleOk : SpawnReq → SpawnResult := fun _ => .ok 0 "out" ""

/-- A scheduler on which every process overruns its timeout. -/
def oracleTimeout : SpawnReq → SpawnResult := fun _ => .timedOut

/-- A scheduler on which every spawn raises. -/
def oracleExn : SpawnReq → SpawnResult := fun _ => .exn "boom"

/-! ## Helper lemmas -/

theorem strdata_append (a b : String) : (a ++ b).data = a.data ++ b.data := rfl

theorem str_ext {s t : String} (h : s.data = t.data) : s = t := by
  cases s; cases t; cases h; rfl

theorem strapp_assoc (a b c : String) : (a ++ b) ++ c = a ++ (b ++ c) :=
  str_ext (by simp [strdata_append, List.append_assoc])

theorem isPrefixOf_append_self (n post : List Char) : n.isPrefixOf (n ++ post) = true := by
  induction n with
  | nil => cases post <;> rfl
  | cons c t ih => simp [List.cons_append, List.isPrefixOf, ih]

theorem strContainsAux_here (n post : List Char) : strContainsAux n (n ++ post) = true := by
  cases n with
  | nil => cases post <;> simp [strContainsAux, List.isPrefixOf]
  | cons c t =>
      have h1 : strContainsAux (c :: t) ((c :: t) ++ post) =
          ((c :: t).isPrefixOf ((c :: t) ++ post) || strContainsAux (c :: t) (t ++ post)) := rfl
      rw [h1, isPrefixOf_append_self]
      simp

theorem strContainsAux_cons (n : List Char) (c : Char) (l : List Char)
    (h : strContainsAux n l = true) : strContainsAux n (c :: l) = true := by
  simp [strContainsAux, h]

/-- A string built as `a ++ (t ++ r)` contains `t` as a substring. -/
theorem strContains_parts (a t r : String) : strContains (a ++ (t ++ r)) t = true := by
  unfold strContains
  rw [strdata_append, strdata_append]
  induction a.data with
  | nil => simpa using strContainsAux_here t.data r.data
  | cons c l ih => exact strContainsAux_cons _ c _ ih

/-- `t` occurs in `a ++ t ++ s` (three-part message shapes). -/
theorem strContains_three (a t s : String) : strContains (a ++ t ++ s) t = true := by
  rw [strapp_assoc]
  exact strContains_parts a t s

/-- `t` occurs in `a ++ t ++ s ++ c` (four-part message shapes). -/
theorem strContains_four (a t s c : String) : strContains (a ++ t ++ s ++ c) t = true := by
  rw [strapp_assoc, strapp_assoc]
  exact strContains_parts a t (s ++ c)

theorem b64Val_b64Char_fin : ∀ i : Fin 64, b64Val (b64Char i.val) = some i.val := by decide

theorem b64Val_b64Char (n : Nat) (h : n < 64) : b64Val (b64Char n) = some n :=
  b64Val_b64Char_fin ⟨n, h⟩

theorem b64Char_ne_pad_fin : ∀ i : Fin 64, b64Char i.val ≠ '=' := by decide

theorem b64Char_ne_pad (n : Nat) (h : n < 64) : b64Char n ≠ '=' :=
  b64Char_ne_pad_fin ⟨n, h⟩

/-- Base64 decoding inverts `b64EncodeBytes` on byte lists. -/
theorem b64_roundtrip : (bs : List Nat) → (∀ b ∈ bs, b < 256) →
    b64DecodeChars (b64EncodeBytes bs) = some bs
  | [], _ => rfl
  | [a], h => by
      have ha : a < 256 := h a (by simp)
      have h1 : a / 4 < 64 := by omega
      have h2 : a % 4 * 16 < 64 := by omega
      simp only [b64EncodeBytes, b64DecodeChars, b64Val_b64Char _ h1, b64Val_b64Char _ h2]
      simp only [reduceIte, and_self, Option.some.injEq, List.cons.injEq, and_true]
      omega
  | [a, b], h => by
      have ha : a < 256 := h a (by simp)
      have hb : b < 256 := h b (by simp)
      have h1 : a / 4 < 64 := by omega
      have h2 : a % 4 * 16 + b / 16 < 64 := by omega
      have h3 : b % 16 * 4 < 64 := by omega
      simp only [b64EncodeBytes, b64DecodeChars, b64Val_b64Char _ h1, b64Val_b64Char _ h2,
        b64Val_b64Char _ h3]
      rw [if_neg (b64Char_ne_pad _ h3)]
      simp only [reduceIte, Option.some.injEq, List.cons.injEq, and_true]
      constructor <;> omega
  | a :: b :: c :: rest, h => by
      have ha : a < 256 := h a (by simp)
      have hb : b < 256 := h b (by simp)
      have hc : c < 256 := h c (by simp)
      have ih := b64_roundtrip rest (fun x hx => h x (by simp [hx]))
      have h1 : a / 4 < 64 := by omega
      have h2 : a % 4 * 16 + b / 16 < 64 := by omega
      have h3 : b % 16 * 4 + c / 64 < 64 := by omega
      have h4 : c % 64 < 64 := by omega
      simp only [b64EncodeBytes, b64DecodeChars, b64Val_b64Char _ h1, b64Val_b64Char _ h2,
        b64Val_b64Char _ h3, b64Val_b64Char _ h4]
      rw [if_neg (b64Char_ne_pad _ h3), if_neg (b64Char_ne_pad _ h4), ih]
      simp only [Option.map_some', Option.some.injEq, List.cons.injEq, and_true]
      refine ⟨by omega, by omega, by omega⟩

theorem pyIsAbs_cons (l : List Char) (s : String) (h : s.data = '/' :: l) :
    pyIsAbs s = true := by
  unfold pyIsAbs pyStartswith
  rw [h]
  have hd : "/".data = ['/'] := rfl
  rw [hd]
  simp [List.isPrefixOf]

theorem data_of_pyIsAbs (s : String) (h : pyIsAbs s = true) : ∃ l, s.data = '/' :: l := by
  unfold pyIsAbs pyStartswith at h
  have hd : "/".data = ['/'] := rfl
  rw [hd] at h
  cases hs : s.data with
  | nil => rw [hs] at h; simp [List.isPrefixOf] at h
  | cons c l =>
      rw [hs] at h
      simp [List.isPrefixOf] at h
      exact ⟨l, by simp [hs, ← h]⟩

theorem pyJoin_abs (a b : String) (h : pyIsAbs a = true) : pyIsAbs (pyJoin a b) = true := by
  obtain ⟨l, hl⟩ := data_of_pyIsAbs a h
  have habs : ∀ x : String, pyIsAbs (a ++ x) = true := fun x =>
    pyIsAbs_cons (l ++ x.data) _ (by rw [strdata_append, hl]; rfl)
  have hne : (a == "") = false := by
    cases hq : a == ""
    · rfl
    · have : a = "" := eq_of_beq hq
      rw [this] at hl
      exact absurd hl (by simp [String.data])
  unfold pyJoin
  by_cases hb : pyIsAbs b = true
  · simp [hb]
  · simp only [hb, if_false, Bool.false_eq_true, hne, Bool.false_or]
    by_cases he : pyEndswith a "/" = true
    · simp [he, habs]
    · simp only [he, Bool.false_eq_true, if_false]
      refine pyIsAbs_cons ((l ++ ("/").data) ++ b.data) _ ?_
      rw [strdata_append, strdata_append, hl]
      rfl

theorem not_tilde_of_abs (s : String) (h : pyIsAbs s = true) :
    pyStartswith s "~" = false := by
  obtain ⟨l, hl⟩ := data_of_pyIsAbs s h
  unfold pyStartswith
  rw [hl]
  have hd : "~".data = ['~'] := rfl
  rw [hd]
  simp [List.isPrefixOf]

theorem pyExpanduser_abs (env : Env) (s : String) (h : pyIsAbs s = true) :
    pyExpanduser env s = s := by
  unfold pyExpanduser
  rw [not_tilde_of_abs s h]
  simp

theorem pyNormpath_abs (s : String) (h : pyIsAbs s = true) :
    pyIsAbs (pyNormpath s) = true := by
  obtain ⟨l, hl⟩ := data_of_pyIsAbs s h
  have hslash : pyStartswith s "/" = true := h
  have hne : ¬ s.data = [] := by rw [hl]; simp
  unfold pyNormpath
  rw [if_neg hne]
  simp only [hslash, if_true]
  by_cases h2 : (pyStartswith s "//" && !pyStartswith s "///") = true
  · simp only [h2, if_true]
    have hcond : ¬(List.replicate 2 '/' ++
        joinWith '/' (normComps 2 [] (splitSlash s.data)) = []) := by simp
    rw [if_neg hcond]
    exact pyIsAbs_cons ('/' :: joinWith '/' (normComps 2 [] (splitSlash s.data))) _ rfl
  · simp only [h2, Bool.false_eq_true, if_false]
    have hcond : ¬(List.replicate 1 '/' ++
        joinWith '/' (normComps 1 [] (splitSlash s.data)) = []) := by simp
    rw [if_neg hcond]
    exact pyIsAbs_cons (joinWith '/' (normComps 1 [] (splitSlash s.data))) _ rfl

theorem cec_none (env : Env) : checkEffectiveCwd env none = .pass [] := rfl

theorem cec_nodir (env : Env) (ec : String) (hne : (ec == "") = false)
    (hd : env.isdir ec = false) :
    checkEffectiveCwd env (some ec) =
      .fail ⟨1, "", "", some ("Working directory does not exist: " ++ ec)⟩ [] := by
  simp [checkEffectiveCwd, optTruthy, hne, hd]

theorem cec_noperm (env : Env) (ec : String) (hne : (ec == "") = false)
    (hd : env.isdir ec = true) (hp : env.isPathAllowed ec = false) :
    checkEffectiveCwd env (some ec) =
      .fail ⟨1, "", "", some ("Working directory not allowed: " ++ ec)⟩ [.permCheck ec] := by
  simp [checkEffectiveCwd, optTruthy, hne, hd, hp]

theorem cec_pass (env : Env) (ec : String) (hne : (ec == "") = false)
    (hd : env.isdir ec = true) (hp : env.isPathAllowed ec = true) :
    checkEffectiveCwd env (some ec) = .pass [.permCheck ec] := by
  simp [checkEffectiveCwd, optTruthy, hne, hd, hp]

theorem strContains_suffix (a t : String) : strContains (a ++ t) t = true := by
  have h := strContains_parts a t ""
  rwa [show t ++ "" = t from str_ext (by simp [strdata_append, String.data])] at h

theorem finishSpawn_timeout (oracle : SpawnReq → SpawnResult) (req : SpawnReq)
    (sd : Option String) (tmsg epre : String) (h : oracle req = .timedOut) :
    finishSpawn oracle req sd tmsg epre =
      (.ret ⟨-1, "", "", some tmsg⟩, [.spawn req sd, .kill]) := by
  unfold finishSpawn
  rw [h]

theorem finishSpawn_head (oracle : SpawnReq → SpawnResult) (req : SpawnReq)
    (sd : Option String) (tmsg epre : String) :
    (finishSpawn oracle req sd tmsg epre).2.head? = some (.spawn req sd) := by
  unfold finishSpawn
  cases oracle req <;> rfl

theorem getLast_cons_concat (a b : Effect) (l : List Effect) :
    (a :: (l ++ [b])).getLast? = some b := by
  rw [← List.cons_append]
  exact List.getLast?_concat _

theorem strapp_empty (s : String) : s ++ "" = s :=
  str_ext (by simp [strdata_append, String.data])

theorem spawnCwds_permCheck_finish (oracle : SpawnReq → SpawnResult) (req : SpawnReq)
    (sd : Option String) (tmsg epre : String) (d : String) :
    spawnCwds (.permCheck d :: (finishSpawn oracle req sd tmsg epre).2) = [req.cwdOf] := by
  unfold finishSpawn
  cases oracle req <;> cases req <;> rfl

theorem utf8EncodeNat_lt (n : Nat) (h : n < 1114112) : ∀ b ∈ utf8EncodeNat n, b < 256 := by
  intro b hb
  unfold utf8EncodeNat at hb
  by_cases h1 : n < 128
  · rw [if_pos h1] at hb
    simp at hb
    omega
  · rw [if_neg h1] at hb
    by_cases h2 : n < 2048
    · rw [if_pos h2] at hb
      simp at hb
      rcases hb with hb | hb <;> omega
    · rw [if_neg h2] at hb
      by_cases h3 : n < 65536
      · rw [if_pos h3] at hb
        simp at hb
        rcases hb with hb | hb | hb <;> omega
      · rw [if_neg h3] at hb
        simp at hb
        rcases hb with hb | hb | hb | hb <;> omega

theorem utf8Bytes_lt (s : String) : ∀ b ∈ utf8Bytes s, b < 256 := by
  intro b hb
  unfold utf8Bytes at hb
  rw [List.mem_flatMap] at hb
  obtain ⟨c, _, hbc⟩ := hb
  have hv : c.val.toNat.isValidChar := c.valid
  have hc : c.toNat < 1114112 := by
    rcases hv with h1 | ⟨h2, h3⟩
    · show c.val.toNat < 1114112
      omega
    · exact h3
  exact utf8EncodeNat_lt c.toNat hc b hbc

theorem cdTarget_abs (env : Env) (sess D : String) (h : pyIsAbs sess = true) :
    pyIsAbs (cdTarget env sess D) = true := by
  unfold cdTarget
  by_cases hD : pyIsAbs D = true
  · simp only [hD, if_true]
    exact pyNormpath_abs _ (by rw [pyExpanduser_abs env D hD]; exact hD)
  · simp only [hD, Bool.false_eq_true, if_false]
    have hj := pyJoin_abs sess D h
    exact pyNormpath_abs _ (by rw [pyExpanduser_abs env _ hj]; exact hj)

/-- Reduction of `execute_command` to its session-`cd` branch when a session
id is present and the command is a well-formed `cd <dir>`. -/
theorem executeCommand_cd_branch (env : Env) (oracle : SpawnReq → SpawnResult)
    (command : String) (cwd : Option String) (timeoutStr : String) (uls : Bool)
    (S D : String) (rest : List String)
    (hS : (S == "") = false)
    (hstrip : pyStartswith (pyStrip command) "cd " = true)
    (hsplit : shlexSplit command = .ok ("cd" :: D :: rest)) :
    executeCommand excludedDefault env oracle command cwd timeoutStr uls (some S) =
      (if env.isdir (cdTarget env (env.sessionDirs S) D) then
        (.ret ⟨0, "", "", none⟩,
         [.setWorkingDir S (pyExpanduser env (cdTarget env (env.sessionDirs S) D))])
       else
        (.ret ⟨1, "", "", some ("Directory does not exist: " ++
          cdTarget env (env.sessionDirs S) D)⟩, [])) := by
  have hallow : isCommandAllowed excludedDefault command = true := by
    unfold isCommandAllowed
    rw [hsplit]
    rfl
  have hlen : 1 < ("cd" :: D :: rest).length := by simp
  unfold executeCommand
  rw [hallow]
  simp only [Bool.not_true, Bool.false_eq_true, if_false, optTruthy, hS, Bool.not_false,
    hstrip, Bool.and_self, if_true, hsplit]
  rw [if_pos hlen]
  simp [List.getD]

/-! ## Claim theorems -/

/-- C1: any command whose `shlex` tokenization fails, yields no tokens, or
has its base token in `excluded_commands` is rejected by `execute_command`
with `return_code=1` and an error message naming the command, with no
subprocess spawned — in both executor variants. -/
theorem claim_c1_denylist_rejection (excluded patterns : List String) (env : Env)
    (oracle : SpawnReq → SpawnResult) (command : String) (cwd : Option String)
    (timeoutStr : String) (uls : Bool) (sid : Option String)
    (h : (∃ e, shlexSplit command = .error e) ∨ shlexSplit command = .ok [] ∨
         ∃ base rest, shlexSplit command = .ok (base :: rest) ∧ excluded.contains base = true) :
    executeCommand excluded env oracle command cwd timeoutStr uls sid =
      (.ret ⟨1, "", "", some ("Command not allowed: " ++ command)⟩, []) ∧
    enhancedExecuteCommand excluded patterns env oracle command cwd timeoutStr =
      (.ret ⟨1, "", "", some ("Command not allowed: " ++ command)⟩, []) ∧
    strContains ("Command not allowed: " ++ command) command = true := by
  have hnot : isCommandAllowed excluded command = false := by
    rcases h with ⟨e, he⟩ | he | ⟨base, rest, he, hb⟩
    · simp [isCommandAllowed, he]
    · simp [isCommandAllowed, he]
    · have hm : base ∈ excluded := List.mem_of_elem_eq_true hb
      simp [isCommandAllowed, he, hm]
  have hnot2 : enhancedIsCommandAllowed excluded patterns command = false := by
    rcases h with ⟨e, he⟩ | he | ⟨base, rest, he, hb⟩
    · simp [enhancedIsCommandAllowed, he]
    · simp [enhancedIsCommandAllowed, he]
    · have hm : base ∈ excluded := List.mem_of_elem_eq_true hb
      simp [enhancedIsCommandAllowed, he, hm]
  refine ⟨?_, ?_, strContains_suffix _ _⟩
  · unfold executeCommand
    rw [hnot]
    rfl
  · unfold enhancedExecuteCommand
    rw [hnot2]
    rfl

/-- C1 witness: the default denylist rejects `rm -rf /` concretely. -/
theorem claim_c1_witness :
    executeCommand ["rm"] envW oracleOk "rm -rf /" none "60.0" true none =
      (.ret ⟨1, "", "", some ("Command not allowed: " ++ "rm -rf /")⟩, []) :=
  (claim_c1_denylist_rejection ["rm"] enhancedPatternsDefault envW oracleOk "rm -rf /"
    none "60.0" true none
    (Or.inr (Or.inr ⟨"rm", ["-rf", "/"], by decide, by decide⟩))).1

/-- C3: for a session `S` whose stored directory is absolute, a command
`cd D` resolves the target relative to the session directory (joining when
relative, `~`-expanding, normalizing); when the target is an existing
directory the session directory is updated to the resolved target and the
call returns `return_code=0` with no process spawned; otherwise a failed
result naming the target is returned and the session state is untouched. -/
theorem claim_c3_cd_session (env : Env) (oracle : SpawnReq → SpawnResult)
    (command : String) (cwd : Option String) (timeoutStr : String) (uls : Bool)
    (S D : String) (rest : List String)
    (hS : (S == "") = false)
    (hstrip : pyStartswith (pyStrip command) "cd " = true)
    (hsplit : shlexSplit command = .ok ("cd" :: D :: rest))
    (habs : pyIsAbs (env.sessionDirs S) = true) :
    cdTarget env (env.sessionDirs S) D =
      pyNormpath (pyExpanduser env
        (if pyIsAbs D then D else pyJoin (env.sessionDirs S) D)) ∧
    (env.isdir (cdTarget env (env.sessionDirs S) D) = true →
      executeCommand excludedDefault env oracle command cwd timeoutStr uls (some S) =
        (.ret ⟨0, "", "", none⟩,
         [.setWorkingDir S (cdTarget env (env.sessionDirs S) D)])) ∧
    (env.isdir (cdTarget env (env.sessionDirs S) D) = false →
      executeCommand excludedDefault env oracle command cwd timeoutStr uls (some S) =
        (.ret ⟨1, "", "", some ("Directory does not exist: " ++
          cdTarget env (env.sessionDirs S) D)⟩, [])) := by
  have hbr := executeCommand_cd_branch env oracle command cwd timeoutStr uls S D rest
    hS hstrip hsplit
  have htabs := cdTarget_abs env (env.sessionDirs S) D habs
  refine ⟨rfl, ?_, ?_⟩
  · intro hdir
    rw [hbr, if_pos hdir, pyExpanduser_abs env _ htabs]
  · intro hdir
    rw [hbr, if_neg (by simp [hdir])]

/-- C3 witness: `cd sub` from session directory `/w` moves the session to
`/w/sub` without spawning. -/
theorem claim_c3_witness :
    executeCommand excludedDefault envW oracleOk "cd sub" none "60.0" true (some "s") =
      (.ret ⟨0, "", "", none⟩, [.setWorkingDir "s" (cdTarget envW "/w" "sub")]) :=
  (claim_c3_cd_session envW oracleOk "cd sub" none "60.0" true "s" "sub" []
    (by decide) (by decide) (by decide) (by decide)).2.1 (by decide)

/-- C4: the session `cd` branch returns before the working-directory
permission check: with an existing but permission-denied target, `cd`
still updates the session directory and returns success, and the trace
contains no permission-manager query and no spawn. -/
theorem claim_c4_cd_bypasses_allowlist (env : Env) (oracle : SpawnReq → SpawnResult)
    (command : String) (cwd : Option String) (timeoutStr : String) (uls : Bool)
    (S D : String) (rest : List String)
    (hS : (S == "") = false)
    (hstrip : pyStartswith (pyStrip command) "cd " = true)
    (hsplit : shlexSplit command = .ok ("cd" :: D :: rest))
    (habs : pyIsAbs (env.sessionDirs S) = true)
    (hdir : env.isdir (cdTarget env (env.sessionDirs S) D) = true)
    (hperm : env.isPathAllowed (cdTarget env (env.sessionDirs S) D) = false) :
    executeCommand excludedDefault env oracle command cwd timeoutStr uls (some S) =
      (.ret ⟨0, "", "", none⟩,
       [.setWorkingDir S (cdTarget env (env.sessionDirs S) D)]) ∧
    (executeCommand excludedDefault env oracle command cwd timeoutStr uls
      (some S)).2.any Effect.isPermCheck = false ∧
    noSpawn (executeCommand excludedDefault env oracle command cwd timeoutStr uls
      (some S)).2 = true := by
  have hbr := executeCommand_cd_branch env oracle command cwd timeoutStr uls S D rest
    hS hstrip hsplit
  have htabs := cdTarget_abs env (env.sessionDirs S) D habs
  have h1 : executeCommand excludedDefault env oracle command cwd timeoutStr uls (some S) =
      (.ret ⟨0, "", "", none⟩,
       [.setWorkingDir S (cdTarget env (env.sessionDirs S) D)]) := by
    rw [hbr, if_pos hdir, pyExpanduser_abs env _ htabs]
  refine ⟨h1, ?_, ?_⟩
  · rw [h1]
    rfl
  · rw [h1]
    rfl

/-- C4 witness: `cd /d` with `/d` existing but not allowed still succeeds
and updates the session, with no permission query in the trace. -/
theorem claim_c4_witness :
    executeCommand excludedDefault envW oracleOk "cd /d" none "60.0" true (some "s") =
      (.ret ⟨0, "", "", none⟩, [.setWorkingDir "s" (cdTarget envW "/w" "/d")]) ∧
    envW.isPathAllowed (cdTarget envW "/w" "/d") = false :=
  ⟨(claim_c4_cd_bypasses_allowlist envW oracleOk "cd /d" none "60.0" true "s" "/d" []
      (by decide) (by decide) (by decide) (by decide) (by decide) (by decide)).1,
   by decide⟩

/-- C5: on a scheduler where the subprocess overruns its timeout, every
execution path — `execute_command`, `execute_script` (stdin and Fish
handler), and `execute_script_from_file`, in both executor variants —
kills the process and returns `return_code=-1` with an error message
containing the timeout value; no exception propagates (the outcome is a
returned `CommandResult`). -/
theorem claim_c5_timeout (excluded patterns : List String) (env : Env)
    (oracle : SpawnReq → SpawnResult) (command script interpreter language : String)
    (timeoutStr : String) (name : String) (restWords : List String)
    (argv parts : List String) (lname cmd ext : String)
    (ho : ∀ r, oracle r = .timedOut) :
    (isCommandAllowed excluded command = true →
      executeCommand excluded env oracle command none timeoutStr true none =
        (.ret ⟨-1, "", "", some ("Command timed out after " ++ timeoutStr ++
            " seconds: " ++ command)⟩,
         [.spawn (.shell (shellWrap env command) none) none, .kill])) ∧
    (pySplitWs interpreter = name :: restWords → (pyLower name == "fish") = false →
      executeScript env oracle script interpreter none timeoutStr true none =
        (.ret ⟨-1, "", "", some ("Script execution timed out after " ++ timeoutStr ++
            " seconds")⟩,
         [.spawn (.shell (env.preferredShell ++ " -l -c " ++ squote ++ interpreter ++ squote)
            none) (some script), .kill])) ∧
    (pySplitWs interpreter = name :: restWords → (pyLower name == "fish") = true →
      executeScript env oracle script interpreter none timeoutStr true none =
        (.ret ⟨-1, "", "", some ("Fish script execution timed out after " ++ timeoutStr ++
            " seconds")⟩,
         [.spawn (.shell (fishCommand interpreter script) none) none, .kill])) ∧
    (languageMap.find? (fun e => e.1 == language) = some (lname, cmd, ext) →
      executeScriptFromFile env oracle script language none timeoutStr none true none =
        (.ret ⟨-1, "", "", some ("Script execution timed out after " ++ timeoutStr ++
            " seconds")⟩,
         [.tempCreate (env.tempPath ext) ext script,
          .spawn (.shell (env.preferredShell ++ " -l -c " ++ squote ++
            (cmd ++ " " ++ env.tempPath ext) ++ squote) none) none,
          .kill, .tempRemove (env.tempPath ext)])) ∧
    (enhancedIsCommandAllowed excluded patterns command = true →
     shlexSplit command = .ok argv →
      enhancedExecuteCommand excluded patterns env oracle command none timeoutStr =
        (.ret ⟨-1, "", "", some ("Command timed out after " ++ timeoutStr ++
            " seconds: " ++ command)⟩,
         [.spawn (.exec argv none) none, .kill])) ∧
    (pySplitWs interpreter = name :: restWords → (pyLower name == "fish") = false →
     shlexSplit interpreter = .ok parts →
      enhancedExecuteScript env oracle script interpreter none timeoutStr =
        (.ret ⟨-1, "", "", some ("Script execution timed out after " ++ timeoutStr ++
            " seconds")⟩,
         [.spawn (.exec parts none) (some script), .kill])) ∧
    (languageMap.find? (fun e => e.1 == language) = some (lname, cmd, ext) →
      enhancedExecuteScriptFromFile env oracle script language none timeoutStr none =
        (.ret ⟨-1, "", "", some ("Script execution timed out after " ++ timeoutStr ++
            " seconds")⟩,
         [.tempCreate (env.tempPath ext) ext script,
          .spawn (.exec [cmd, env.tempPath ext] none) none,
          .kill, .tempRemove (env.tempPath ext)])) ∧
    strContains ("Command timed out after " ++ timeoutStr ++ " seconds: " ++ command)
      timeoutStr = true ∧
    strContains ("Script execution timed out after " ++ timeoutStr ++ " seconds")
      timeoutStr = true ∧
    strContains ("Fish script execution timed out after " ++ timeoutStr ++ " seconds")
      timeoutStr = true := by
  have hft : ∀ (req : SpawnReq) (sd : Option String) (tmsg epre : String),
      finishSpawn oracle req sd tmsg epre =
        (.ret ⟨-1, "", "", some tmsg⟩, [.spawn req sd, .kill]) :=
    fun req sd tmsg epre => finishSpawn_timeout oracle req sd tmsg epre (ho req)
  refine ⟨?_, ?_, ?_, ?_, ?_, ?_, ?_,
    strContains_four _ _ _ _, strContains_three _ _ _, strContains_three _ _ _⟩
  · intro hallow
    have hun : executeCommand excluded env oracle command none timeoutStr true none =
        executeCommandRest env oracle command none none timeoutStr true := by
      unfold executeCommand
      rw [hallow]
      simp [optTruthy, effectiveCwdOf]
    rw [hun]
    unfold executeCommandRest
    rw [cec_none]
    unfold commandSpawn
    simp [hft]
  · intro hws hnf
    simp [executeScript, effectiveCwdOf, optTruthy, cec_none, hws, hnf, scriptStdin, hft]
  · intro hws hf
    simp [executeScript, effectiveCwdOf, optTruthy, cec_none, hws, hf, handleFishScript, hft]
  · intro hfind
    simp [executeScriptFromFile, effectiveCwdOf, optTruthy, hfind, hft, strapp_empty]
  · intro hallow hsplit
    unfold enhancedExecuteCommand
    rw [hallow]
    simp [cec_none, hsplit, hft]
  · intro hws hnf hsplitI
    simp [enhancedExecuteScript, cec_none, hws, hnf, enhancedScriptStdin, hsplitI, hft]
  · intro hfind
    simp [enhancedExecuteScriptFromFile, hfind, hft]

/-- C5 witness: a concrete timed-out `echo hi` and a timed-out python
script file. -/
theorem claim_c5_witness :
    executeCommand ["rm"] envW oracleTimeout "echo hi" none "9.5" true none =
      (.ret ⟨-1, "", "", some ("Command timed out after " ++ "9.5" ++
          " seconds: " ++ "echo hi")⟩,
       [.spawn (.shell (shellWrap envW "echo hi") none) none, .kill]) ∧
    executeScriptFromFile envW oracleTimeout "print(1)" "python" none "9.5" none true none =
      (.ret ⟨-1, "", "", some ("Script execution timed out after " ++ "9.5" ++
          " seconds")⟩,
       [.tempCreate (envW.tempPath ".py") ".py" "print(1)",
        .spawn (.shell (envW.preferredShell ++ " -l -c " ++ squote ++
          ("python" ++ " " ++ envW.tempPath ".py") ++ squote) none) none,
        .kill, .tempRemove (envW.tempPath ".py")]) :=
  ⟨(claim_c5_timeout ["rm"] enhancedPatternsDefault envW oracleTimeout "echo hi" "print(1)"
      "python3" "python" "9.5" "python3" [] [] [] "python" "python" ".py"
      (fun _ => rfl)).1 (by decide),
   (claim_c5_timeout ["rm"] enhancedPatternsDefault envW oracleTimeout "echo hi" "print(1)"
      "python3" "python" "9.5" "python3" [] [] [] "python" "python" ".py"
      (fun _ => rfl)).2.2.2.1 (by decide)⟩

/-- C6: for supported languages, `execute_script_from_file` begins by
creating a temporary file with the language's extension holding the script,
and its trace ends with the removal of that same file — for every scheduler
outcome (success, non-zero exit, spawn error, timeout) and in both executor
variants. -/
theorem claim_c6_tempfile_cleanup (env : Env) (oracle : SpawnReq → SpawnResult)
    (script language : String) (cwd : Option String) (timeoutStr : String)
    (args : Option (List String)) (uls : Bool) (sid : Option String)
    (lname cmd ext : String)
    (hfind : languageMap.find? (fun e => e.1 == language) = some (lname, cmd, ext)) :
    ((executeScriptFromFile env oracle script language cwd timeoutStr args uls sid).2.head? =
        some (.tempCreate (env.tempPath ext) ext script) ∧
     (executeScriptFromFile env oracle script language cwd timeoutStr args uls sid).2.getLast? =
        some (.tempRemove (env.tempPath ext))) ∧
    ((enhancedExecuteScriptFromFile env oracle script language cwd timeoutStr args).2.head? =
        some (.tempCreate (env.tempPath ext) ext script) ∧
     (enhancedExecuteScriptFromFile env oracle script language cwd timeoutStr args).2.getLast? =
        some (.tempRemove (env.tempPath ext))) := by
  refine ⟨⟨?_, ?_⟩, ?_, ?_⟩
  · simp [executeScriptFromFile, hfind]
  · simp only [executeScriptFromFile, hfind]
    exact getLast_cons_concat _ _ _
  · simp [enhancedExecuteScriptFromFile, hfind]
  · simp only [enhancedExecuteScriptFromFile, hfind]
    exact getLast_cons_concat _ _ _

/-- C6 witness: a ruby script on a scheduler whose spawn raises still has
its `.rb` temporary file created first and removed last. -/
theorem claim_c6_witness :
    (executeScriptFromFile envW oracleExn "puts 1" "ruby" none "60.0" none false none).2.head? =
      some (.tempCreate (envW.tempPath ".rb") ".rb" "puts 1") ∧
    (executeScriptFromFile envW oracleExn "puts 1" "ruby" none "60.0" none false none).2.getLast? =
      some (.tempRemove (envW.tempPath ".rb")) :=
  (claim_c6_tempfile_cleanup envW oracleExn "puts 1" "ruby" none "60.0" none false none
    "ruby" "ruby" ".rb" (by decide)).1

/-- C7: when the interpreter's first word is `fish`, `execute_script`
dispatches to the registered special handler (no stdin piping); the handler
spawns exactly `interpreter -c "echo <b64> | base64 -d | fish"` where
`<b64>` is the base64 encoding of the script's UTF-8 bytes, and decoding
`<b64>` yields those bytes again. -/
theorem claim_c7_fish_handler (env : Env) (oracle : SpawnReq → SpawnResult)
    (script interpreter timeoutStr : String) (uls : Bool)
    (name : String) (restWords : List String)
    (hws : pySplitWs interpreter = name :: restWords)
    (hfish : (pyLower name == "fish") = true) :
    executeScript env oracle script interpreter none timeoutStr uls none =
      handleFishScript oracle interpreter script none timeoutStr ∧
    (executeScript env oracle script interpreter none timeoutStr uls none).2.head? =
      some (.spawn (.shell (fishCommand interpreter script) none) none) ∧
    fishCommand interpreter script =
      interpreter ++ " -c \"echo " ++ b64OfString script ++ " | base64 -d | fish\"" ∧
    b64DecodeChars (b64OfString script).data = some (utf8Bytes script) := by
  have h1 : executeScript env oracle script interpreter none timeoutStr uls none =
      handleFishScript oracle interpreter script none timeoutStr := by
    simp [executeScript, effectiveCwdOf, optTruthy, cec_none, hws, hfish]
  refine ⟨h1, ?_, rfl, ?_⟩
  · rw [h1]
    unfold handleFishScript
    exact finishSpawn_head _ _ _ _ _
  · exact b64_roundtrip _ (utf8Bytes_lt script)

/-- C7 witness: a script containing embedded double quotes goes through the
base64 pipeline and decodes back to its own bytes. -/
theorem claim_c7_witness :
    (executeScript envW oracleOk "echo \"a b\"" "fish" none "60.0" true none).2.head? =
      some (.spawn (.shell (fishCommand "fish" "echo \"a b\"") none) none) ∧
    b64DecodeChars (b64OfString "echo \"a b\"").data = some (utf8Bytes "echo \"a b\"") :=
  ⟨(claim_c7_fish_handler envW oracleOk "echo \"a b\"" "fish" "60.0" true "fish" []
      (by decide) (by decide)).2.1,
   (claim_c7_fish_handler envW oracleOk "echo \"a b\"" "fish" "60.0" true "fish" []
      (by decide) (by decide)).2.2.2⟩

/-- C9: an unsupported language is rejected by `execute_script_from_file`
(in both variants) with `return_code=1`, an error message naming the
language and enumerating every supported language, no temporary file, and
no subprocess (the effect trace is empty); the language map is exactly the
fixed nine-entry table. -/
theorem claim_c9_unsupported_language (env : Env) (oracle : SpawnReq → SpawnResult)
    (script language : String) (cwd : Option String) (timeoutStr : String)
    (args : Option (List String)) (uls : Bool) (sid : Option String)
    (hfind : languageMap.find? (fun e => e.1 == language) = none) :
    executeScriptFromFile env oracle script language cwd timeoutStr args uls sid =
      (.ret ⟨1, "", "", some ("Unsupported language: " ++ language ++
        ". Supported languages: " ++ supportedLanguagesJoined)⟩, []) ∧
    enhancedExecuteScriptFromFile env oracle script language cwd timeoutStr args =
      (.ret ⟨1, "", "", some ("Unsupported language: " ++ language ++
        ". Supported languages: " ++ supportedLanguagesJoined)⟩, []) ∧
    languageMap.map (fun e => e.1) =
      ["python", "javascript", "typescript", "bash", "fish", "ruby", "php", "perl", "r"] ∧
    supportedLanguagesJoined =
      "python, javascript, typescript, bash, fish, ruby, php, perl, r" := by
  refine ⟨?_, ?_, by decide, by decide⟩
  · simp [executeScriptFromFile, hfind]
  · simp [enhancedExecuteScriptFromFile, hfind]

/-- C9 witness: `cobol` is rejected with the enumerated message and an
empty effect trace. -/
theorem claim_c9_witness :
    executeScriptFromFile envW oracleOk "x" "cobol" none "60.0" none true none =
      (.ret ⟨1, "", "", some ("Unsupported language: " ++ "cobol" ++
        ". Supported languages: " ++ supportedLanguagesJoined)⟩, []) :=
  (claim_c9_unsupported_language envW oracleOk "x" "cobol" none "60.0" none true none
    (by decide)).1

/-- C10: with `use_login_shell=True`, `cwd=None` and a session whose stored
directory `d` exists and is allowed, `execute_command` runs its existence
and permission checks against `d` but spawns the shell with the original
`cwd` argument (`None`): the only spawn in the trace carries working
directory `none`, not `some d`. -/
theorem claim_c10_shell_ignores_session_cwd (excluded : List String) (env : Env)
    (oracle : SpawnReq → SpawnResult) (command timeoutStr S d : String)
    (hallow : isCommandAllowed excluded command = true)
    (hnotcd : pyStartswith (pyStrip command) "cd " = false)
    (hS : (S == "") = false)
    (hsess : env.sessionDirs S = d)
    (hdne : (d == "") = false)
    (hdir : env.isdir d = true)
    (hperm : env.isPathAllowed d = true) :
    executeCommand excluded env oracle command none timeoutStr true (some S) =
      ((finishSpawn oracle (.shell (shellWrap env command) none) none
         ("Command timed out after " ++ timeoutStr ++ " seconds: " ++ command)
         "Error executing command: ").1,
       .permCheck d :: (finishSpawn oracle (.shell (shellWrap env command) none) none
         ("Command timed out after " ++ timeoutStr ++ " seconds: " ++ command)
         "Error executing command: ").2) ∧
    spawnCwds (executeCommand excluded env oracle command none timeoutStr true
      (some S)).2 = [none] ∧
    effectiveCwdOf env none (some S) = some d := by
  have hec : effectiveCwdOf env none (some S) = some d := by
    simp [effectiveCwdOf, optTruthy, hS, hsess]
  have h1 : executeCommand excluded env oracle command none timeoutStr true (some S) =
      ((finishSpawn oracle (.shell (shellWrap env command) none) none
         ("Command timed out after " ++ timeoutStr ++ " seconds: " ++ command)
         "Error executing command: ").1,
       .permCheck d :: (finishSpawn oracle (.shell (shellWrap env command) none) none
         ("Command timed out after " ++ timeoutStr ++ " seconds: " ++ command)
         "Error executing command: ").2) := by
    unfold executeCommand
    rw [hallow]
    simp only [Bool.not_true, Bool.false_eq_true, if_false, optTruthy, hS, Bool.not_false,
      hnotcd, Bool.and_false, hec]
    unfold executeCommandRest
    rw [cec_pass env d hdne hdir hperm]
    unfold commandSpawn
    simp
  refine ⟨h1, ?_, hec⟩
  rw [h1]
  exact spawnCwds_permCheck_finish oracle _ none _ _ d

/-- C10 witness: `echo hi` in session `s` (directory `/w`, existing and
allowed) spawns with working directory `none`. -/
theorem claim_c10_witness :
    spawnCwds (executeCommand ["rm"] envW oracleOk "echo hi" none "60.0" true
      (some "s")).2 = [none] ∧
    effectiveCwdOf envW none (some "s") = some "/w" :=
  ⟨(claim_c10_shell_ignores_session_cwd ["rm"] envW oracleOk "echo hi" "60.0" "s" "/w"
      (by decide) (by decide) (by decide) (by decide) (by decide) (by decide) (by decide)).2.1,
   (claim_c10_shell_ignores_session_cwd ["rm"] envW oracleOk "echo hi" "60.0" "s" "/w"
      (by decide) (by decide) (by decide) (by decide) (by decide) (by decide) (by decide)).2.2⟩

/-- C8 counterexample: the claim's "the two functions agree only on
commands free of the strict variant's excluded patterns..." fails at
`rm a && b`: both variants reject it (they agree), yet it contains the
excluded pattern `&&`. -/
theorem claim_c8_counterexample :
    isCommandAllowed ["rm"] "rm a && b" = false ∧
    enhancedIsCommandAllowed enhancedExcludedDefault enhancedPatternsDefault "rm a && b" =
      false ∧
    strContains "rm a && b" "&&" = true ∧
    "&&" ∈ enhancedPatternsDefault ∧
    "rm" ∈ enhancedExcludedDefault := by
  decide

/-- C8 (amended): the two admission functions are inequivalent —
`echo a && b` is allowed by the permissive variant and rejected by the
strict one — and freeness from the strict variant's excluded patterns and
extra excluded commands is sufficient (though not necessary) for the two
to agree. -/
theorem claim_c8_policy :
    (isCommandAllowed ["rm"] "echo a && b" = true ∧
     enhancedIsCommandAllowed enhancedExcludedDefault enhancedPatternsDefault "echo a && b" =
       false) ∧
    (∀ c : String,
      enhancedPatternsDefault.all (fun p => !(strContains c p)) = true →
      (match shlexSplit c with
       | .ok (t :: _) => !(enhancedExcludedDefault.contains t) || (t == "rm")
       | _ => true) = true →
      isCommandAllowed ["rm"] c =
        enhancedIsCommandAllowed enhancedExcludedDefault enhancedPatternsDefault c) := by
  constructor
  · constructor
    · decide
    · decide
  · intro c hfree hbase
    cases hsp : shlexSplit c with
    | error e => simp [isCommandAllowed, enhancedIsCommandAllowed, hsp]
    | ok args =>
        cases args with
        | nil => simp [isCommandAllowed, enhancedIsCommandAllowed, hsp]
        | cons t r =>
            have hbase' : (!(enhancedExcludedDefault.contains t) || (t == "rm")) = true := by
              rw [hsp] at hbase
              exact hbase
            by_cases hct : enhancedExcludedDefault.contains t = true
            · have hrm : (t == "rm") = true := by
                rw [hct] at hbase'
                simpa using hbase'
              have ht : t = "rm" := eq_of_beq hrm
              subst ht
              have hmem : "rm" ∈ (["rm"] : List String) := by decide
              simp [isCommandAllowed, enhancedIsCommandAllowed, hsp, hct, hmem]
              intro hctr
              exact absurd (by decide : "rm" ∈ enhancedExcludedDefault) hctr
            · have hct' : enhancedExcludedDefault.contains t = false := by
                cases hq : enhancedExcludedDefault.contains t
                · rfl
                · exact absurd hq hct
              have hmem2 : t ∉ enhancedExcludedDefault := by
                intro hm
                have hc2 : enhancedExcludedDefault.contains t = true := by
                  simpa using hm
                rw [hc2] at hct'
                cases hct'
              have hmem : t ∉ (["rm"] : List String) := by
                intro hm
                have ht : t = "rm" := by simpa using hm
                subst ht
                exact hmem2 (by decide)
              have hany : enhancedPatternsDefault.any (fun p => strContains c p) = false := by
                rw [List.any_eq_false]
                intro p hp
                rw [List.all_eq_true] at hfree
                have := hfree p hp
                simpa using this
              simp [isCommandAllowed, enhancedIsCommandAllowed, hsp, hmem, hmem2, hany]
              intro ht
              subst ht
              exact hmem (by decide)

/-- C8 witness: the two admission functions agree concretely on a command
free of excluded patterns and excluded commands. -/
theorem claim_c8_witness :
    isCommandAllowed ["rm"] "ls -la" =
      enhancedIsCommandAllowed enhancedExcludedDefault enhancedPatternsDefault "ls -la" :=
  claim_c8_policy.2 "ls -la" (by decide) (by decide)

/-- C2 counterexample: with session directory `/bad` (which does not exist
and is not allowed) as the determined effective working directory, the call
`execute_command("cd /d", session_id="s")` returns success (`return_code=0`)
rather than a failed result: the `cd` special case returns before the
working-directory guard runs. -/
theorem claim_c2_counterexample :
    effectiveCwdOf envBad none (some "s") = some "/bad" ∧
    envBad.isdir "/bad" = false ∧
    envBad.isPathAllowed "/bad" = false ∧
    executeCommand ["rm"] envBad oracleOk "cd /d" none "60.0" true (some "s") =
      (.ret ⟨0, "", "", none⟩, [.setWorkingDir "s" "/d"]) := by
  decide

/-- C2 (amended): outside the session `cd` special case, every
`execute_command` call whose determined effective working directory does not
exist or is not allowed returns a failed `CommandResult` with a descriptive
error and spawns nothing; the same holds for every `execute_script` call,
and for both functions of the enhanced variant. -/
theorem claim_c2_cwd_rejection (excluded patterns : List String) (env : Env)
    (oracle : SpawnReq → SpawnResult) (command script interpreter : String)
    (cwd sid : Option String) (timeoutStr : String) (uls : Bool) (ec : String) :
    (isCommandAllowed excluded command = true →
     (optTruthy sid && pyStartswith (pyStrip command) "cd ") = false →
     effectiveCwdOf env cwd sid = some ec →
     (ec == "") = false →
     (env.isdir ec = false ∨ (env.isdir ec = true ∧ env.isPathAllowed ec = false)) →
     ∃ msg tr, executeCommand excluded env oracle command cwd timeoutStr uls sid =
       (.ret ⟨1, "", "", some msg⟩, tr) ∧ noSpawn tr = true) ∧
    (effectiveCwdOf env cwd sid = some ec →
     (ec == "") = false →
     (env.isdir ec = false ∨ (env.isdir ec = true ∧ env.isPathAllowed ec = false)) →
     ∃ msg tr, executeScript env oracle script interpreter cwd timeoutStr uls sid =
       (.ret ⟨1, "", "", some msg⟩, tr) ∧ noSpawn tr = true) ∧
    (enhancedIsCommandAllowed excluded patterns command = true →
     (ec == "") = false →
     (env.isdir ec = false ∨ (env.isdir ec = true ∧ env.isPathAllowed ec = false)) →
     ∃ msg tr, enhancedExecuteCommand excluded patterns env oracle command (some ec) timeoutStr =
       (.ret ⟨1, "", "", some msg⟩, tr) ∧ noSpawn tr = true) ∧
    ((ec == "") = false →
     (env.isdir ec = false ∨ (env.isdir ec = true ∧ env.isPathAllowed ec = false)) →
     ∃ msg tr, enhancedExecuteScript env oracle script interpreter (some ec) timeoutStr =
       (.ret ⟨1, "", "", some msg⟩, tr) ∧ noSpawn tr = true) := by
  refine ⟨?_, ?_, ?_, ?_⟩
  · intro hallow hnotcd hec hne hbad
    have hun : executeCommand excluded env oracle command cwd timeoutStr uls sid =
        executeCommandRest env oracle command cwd (some ec) timeoutStr uls := by
      unfold executeCommand
      rw [hallow, hnotcd, hec]
      simp
    rcases hbad with hd | ⟨hd, hp⟩
    · refine ⟨"Working directory does not exist: " ++ ec, [], ?_, rfl⟩
      rw [hun]
      unfold executeCommandRest
      rw [cec_nodir env ec hne hd]
    · refine ⟨"Working directory not allowed: " ++ ec, [.permCheck ec], ?_, rfl⟩
      rw [hun]
      unfold executeCommandRest
      rw [cec_noperm env ec hne hd hp]
  · intro hec hne hbad
    rcases hbad with hd | ⟨hd, hp⟩
    · refine ⟨"Working directory does not exist: " ++ ec, [], ?_, rfl⟩
      simp only [executeScript, hec]
      rw [cec_nodir env ec hne hd]
    · refine ⟨"Working directory not allowed: " ++ ec, [.permCheck ec], ?_, rfl⟩
      simp only [executeScript, hec]
      rw [cec_noperm env ec hne hd hp]
  · intro hallow hne hbad
    rcases hbad with hd | ⟨hd, hp⟩
    · refine ⟨"Working directory does not exist: " ++ ec, [], ?_, rfl⟩
      unfold enhancedExecuteCommand
      rw [hallow, cec_nodir env ec hne hd]
      simp
    · refine ⟨"Working directory not allowed: " ++ ec, [.permCheck ec], ?_, rfl⟩
      unfold enhancedExecuteCommand
      rw [hallow, cec_noperm env ec hne hd hp]
      simp
  · intro hne hbad
    rcases hbad with hd | ⟨hd, hp⟩
    · refine ⟨"Working directory does not exist: " ++ ec, [], ?_, rfl⟩
      simp only [enhancedExecuteScript]
      rw [cec_nodir env ec hne hd]
    · refine ⟨"Working directory not allowed: " ++ ec, [.permCheck ec], ?_, rfl⟩
      simp only [enhancedExecuteScript]
      rw [cec_noperm env ec hne hd hp]

/-- C2 witness: a nonexistent explicit working directory `/x` is rejected
before spawn, concretely, for both variants. -/
theorem claim_c2_witness :
    (∃ msg tr, executeCommand ["rm"] envBad oracleOk "echo hi" (some "/x") "60.0" true none =
      (.ret ⟨1, "", "", some msg⟩, tr) ∧ noSpawn tr = true) ∧
    (∃ msg tr, enhancedExecuteScript envBad oracleOk "echo 1" "bash" (some "/x") "60.0" =
      (.ret ⟨1, "", "", some msg⟩, tr) ∧ noSpawn tr = true) :=
  ⟨(claim_c2_cwd_rejection ["rm"] enhancedPatternsDefault envBad oracleOk "echo hi" "echo 1"
      "bash" (some "/x") none "60.0" true "/x").1
      (by decide) (by decide) (by decide) (by decide) (Or.inl (by decide)),
   (claim_c2_cwd_rejection ["rm"] enhancedPatternsDefault envBad oracleOk "echo hi" "echo 1"
      "bash" (some "/x") none "60.0" true "/x").2.2.2
      (by decide) (Or.inl (by decide))⟩
